import Mathlib

/-
Verification of the archive-import engine of `aiida-core`
(`aiida/tools/importexport/dbimport/backends/django.py`).

The Python module is shallowly embedded below.  Database tables are lists of
records, the Django ORM transaction (`transaction.atomic`) is modelled by
snapshot/rollback semantics, and every `raise` site of the source becomes an
`ImpError` constructor carrying the data that the source interpolates into the
exception message.  Entity kinds are modelled for Node, Group and Comment --
the kinds exercised by the verified properties; User, Computer and Log records
follow the same generic path in the source and carry no additional behaviour
relevant here.  Helpers that the import module calls but that live in modules
outside the embedded file (`validate_uuid`, `validate_link_label`,
`merge_comment`, `merge_extras`, `_make_import_group`, `MAX_GROUPS`,
`DUPL_SUFFIX`) are modelled from the specification and say so in their doc
comments.
-/

/-- Errors of the import run.  Each constructor corresponds to one `raise`
site (or uncaught Python exception) of the source; the constructor fields are
the data interpolated into the corresponding exception message. -/
inductive ImpError where
  | importValidation (msg : String)
  | linkDangling (inUuid outUuid lbl ty : String)
  | badLinkLabel (lbl : String)
  | linkToSelf
  | badLinkType (ty : String)
  | wrongLinkEndpoint (ty srcType tgtType : String)
  | outgoingUnique (srcUuid ty : String)
  | outgoingUniquePair (srcUuid ty lbl : String)
  | incomingUnique (tgtUuid ty : String)
  | incomingUniquePair (tgtUuid ty lbl : String)
  | danglingLink (uuids : List String)
  | importUniqueness (origLabel : String)
  | archiveImport (msg : String)
  | keyError (key : String)
  | doesNotExist (uuid : String)
deriving DecidableEq, Repr

/-- A node row of the database (`DbNode`). -/
structure DbNode where
  pk : Nat
  uuid : String
  node_type : String
  extras : List (String × Int)
deriving DecidableEq, Repr

/-- A group row of the database (`DbGroup`). -/
structure DbGroup where
  pk : Nat
  uuid : String
  label : String
deriving DecidableEq, Repr

/-- A comment row of the database (`DbComment`). -/
structure DbComment where
  pk : Nat
  uuid : String
  mtime : Int
  content : String
deriving DecidableEq, Repr

/-- A link row of the database (`DbLink`): `input_id`, `output_id`, `label`,
`type`. -/
structure DbLink where
  input : Nat
  output : Nat
  label : String
  ltype : String
deriving DecidableEq, Repr

/-- The relational storage visible to the import run. `groupMembers` is the
group–node membership relation (group pk, node pk); `nextPk` models the
auto-increment primary-key sequence shared by the tables for simplicity. -/
structure Storage where
  nodes : List DbNode
  groups : List DbGroup
  comments : List DbComment
  links : List DbLink
  groupMembers : List (Nat × Nat)
  nextPk : Nat
deriving DecidableEq, Repr

/-- A link record of the archive, as yielded by `reader.iter_link_data()`:
`input` and `output` are node UUIDs, `ltype` is the link-type value string. -/
structure LinkRec where
  input : String
  output : String
  label : String
  ltype : String
deriving DecidableEq, Repr

/-- Cardinality class of a link direction. -/
inductive Degree where
  | unique
  | uniquePair
  | uniqueTriple
deriving DecidableEq, Repr

/-- The `LinkType` enumeration (`aiida.common.links.LinkType`). -/
inductive LinkTy where
  | callCalc
  | callWork
  | create
  | inputCalc
  | inputWork
  | ret
deriving DecidableEq, Repr

/-- `LinkType(value)`: conversion from the value string, `none` modelling the
`ValueError` raised on an unknown value. -/
def LinkTy.ofString (s : String) : Option LinkTy :=
  if s == "call_calc" then some .callCalc
  else if s == "call_work" then some .callWork
  else if s == "create" then some .create
  else if s == "input_calc" then some .inputCalc
  else if s == "input_work" then some .inputWork
  else if s == "return" then some .ret
  else none

def calculation_node_types : String := "process.calculation."

def workflow_node_types : String := "process.workflow."

def data_node_types : String := "data."

/-- The `link_mapping` table of `_store_node_links`: for each link type the
required source-type prefix, target-type prefix, outdegree and indegree. -/
def link_mapping : LinkTy → String × String × Degree × Degree
  | .callCalc => (workflow_node_types, calculation_node_types, .uniqueTriple, .unique)
  | .callWork => (workflow_node_types, workflow_node_types, .uniqueTriple, .unique)
  | .create => (calculation_node_types, data_node_types, .uniquePair, .unique)
  | .inputCalc => (data_node_types, calculation_node_types, .uniqueTriple, .uniquePair)
  | .inputWork => (data_node_types, workflow_node_types, .uniqueTriple, .uniquePair)
  | .ret => (workflow_node_types, data_node_types, .uniquePair, .uniqueTriple)

/-- Modelled from the spec: `validate_link_label` lives in
`aiida.common.links`, which is not under `src/`.  The spec requires the label
to be non-empty over a restricted character set (alphanumerics and
underscore). -/
def validate_link_label (l : String) : Bool :=
  decide (0 < l.length) && l.toList.all (fun c => c.isAlphanum || c == '_')

/-- Python's `str.startswith`, on the character lists of the strings. -/
def startsWithStr (s p : String) : Bool :=
  p.toList.isPrefixOf s.toList

/-- The in-memory state of the link-materialization phase
(`_store_node_links`): the duplicate-check set, the four cardinality index
sets, the pending bulk-insert batch and the `ret_dict` link list. -/
structure LinkState where
  existing_links : List (Nat × Nat × String × String)
  existing_outgoing_unique : List (Nat × String)
  existing_outgoing_unique_pair : List (Nat × String × String)
  existing_incoming_unique : List (Nat × String)
  existing_incoming_unique_pair : List (Nat × String × String)
  links_to_store : List DbLink
  ret_links : List (Nat × Nat)
deriving DecidableEq, Repr

/-- Initial `LinkState`, loading `DbLink.objects.all()` once into memory and
deriving the four index sets from it. -/
def initLinkState (links : List DbLink) : LinkState where
  existing_links := links.map (fun l => (l.input, l.output, l.label, l.ltype))
  existing_outgoing_unique := links.map (fun l => (l.input, l.ltype))
  existing_outgoing_unique_pair := links.map (fun l => (l.input, l.label, l.ltype))
  existing_incoming_unique := links.map (fun l => (l.output, l.ltype))
  existing_incoming_unique_pair := links.map (fun l => (l.output, l.label, l.ltype))
  links_to_store := []
  ret_links := []

/-- `DbNode.objects.get(id=pk)`, `none` modelling `DoesNotExist`. -/
def getNode (nodes : List DbNode) (pk : Nat) : Option DbNode :=
  nodes.find? (fun n => n.pk == pk)

/-- The record accepted at the end of one loop iteration of
`_store_node_links`: append to the insert batch and to `ret_dict`, and add the
link to the five in-memory index sets. -/
def acceptLink (st : LinkState) (in_id out_id : Nat) (lbl ty : String) : LinkState where
  existing_links := (in_id, out_id, lbl, ty) :: st.existing_links
  existing_outgoing_unique := (in_id, ty) :: st.existing_outgoing_unique
  existing_outgoing_unique_pair := (in_id, lbl, ty) :: st.existing_outgoing_unique_pair
  existing_incoming_unique := (out_id, ty) :: st.existing_incoming_unique
  existing_incoming_unique_pair := (out_id, lbl, ty) :: st.existing_incoming_unique_pair
  links_to_store := st.links_to_store ++ [⟨in_id, out_id, lbl, ty⟩]
  ret_links := st.ret_links ++ [(in_id, out_id)]

/-- One iteration of the loop over `reader.iter_link_data()` in
`_store_node_links`, in source order: endpoint resolution (with the
`ignore_unknown_nodes` escape), exact-duplicate skip, label validation,
self-loop check, link-type conversion, endpoint-class validation, out-degree
then in-degree cardinality validation, acceptance. -/
def storeOneLink (nodes : List DbNode) (nodeMap : List (String × Nat))
    (ignore_unknown_nodes : Bool) (st : LinkState) (link : LinkRec) :
    Except ImpError LinkState :=
  match nodeMap.lookup link.input, nodeMap.lookup link.output with
  | some in_id, some out_id =>
    if (in_id, out_id, link.label, link.ltype) ∈ st.existing_links then .ok st
    else if validate_link_label link.label = false then .error (.badLinkLabel link.label)
    else
      match getNode nodes in_id, getNode nodes out_id with
      | some source, some target =>
        if source.uuid == target.uuid then .error .linkToSelf
        else
          match LinkTy.ofString link.ltype with
          | none => .error (.badLinkType link.ltype)
          | some lt =>
            let m := link_mapping lt
            if ¬ startsWithStr source.node_type m.1 then
              .error (.wrongLinkEndpoint link.ltype source.node_type target.node_type)
            else if ¬ startsWithStr target.node_type m.2.1 then
              .error (.wrongLinkEndpoint link.ltype source.node_type target.node_type)
            else if m.2.2.1 = .unique ∧ (in_id, link.ltype) ∈ st.existing_outgoing_unique then
              .error (.outgoingUnique source.uuid link.ltype)
            else if m.2.2.1 = .uniquePair ∧
                (in_id, link.label, link.ltype) ∈ st.existing_outgoing_unique_pair then
              .error (.outgoingUniquePair source.uuid link.ltype link.label)
            else if m.2.2.2 = .unique ∧ (out_id, link.ltype) ∈ st.existing_incoming_unique then
              .error (.incomingUnique target.uuid link.ltype)
            else if m.2.2.2 = .uniquePair ∧
                (out_id, link.label, link.ltype) ∈ st.existing_incoming_unique_pair then
              .error (.incomingUniquePair target.uuid link.ltype link.label)
            else .ok (acceptLink st in_id out_id link.label link.ltype)
      | _, _ => .error (.doesNotExist link.input)
  | _, _ =>
    if ignore_unknown_nodes then .ok st
    else .error (.linkDangling link.input link.output link.label link.ltype)

/-- The loop of `_store_node_links` over all archive link records. -/
def storeLinksLoop (nodes : List DbNode) (nodeMap : List (String × Nat))
    (ignore_unknown_nodes : Bool) :
    LinkState → List LinkRec → Except ImpError LinkState
  | st, [] => .ok st
  | st, l :: ls =>
    match storeOneLink nodes nodeMap ignore_unknown_nodes st l with
    | .error e => .error e
    | .ok st2 => storeLinksLoop nodes nodeMap ignore_unknown_nodes st2 ls

/-- `_store_node_links`: early return on zero links, otherwise run the
validation loop and bulk-insert the accepted batch; returns the updated
storage and the `ret_dict` link list. -/
def store_node_links (ignore_unknown_nodes : Bool) (nodeMap : List (String × Nat))
    (links : List LinkRec) (st : Storage) :
    Except ImpError (Storage × List (Nat × Nat)) :=
  if links.isEmpty then .ok (st, [])
  else
    match storeLinksLoop st.nodes nodeMap ignore_unknown_nodes (initLinkState st.links) links with
    | .error e => .error e
    | .ok ls => .ok ({ st with links := st.links ++ ls.links_to_store }, ls.ret_links)

/-- Modelled from the spec: `validate_uuid` lives in `aiida.common.utils`,
which is not under `src/`.  The spec calls it a UUID-validity predicate;
syntactic validity is the canonical dashed form, five lowercase hexadecimal
groups of sizes 8-4-4-4-12. -/
def isUuidChar (i : Nat) (c : Char) : Bool :=
  if i == 8 || i == 13 || i == 18 || i == 23 then c == '-'
  else c.isDigit || ('a' ≤ c && c ≤ 'f')

/-- Modelled from the spec: UUID-validity predicate (see `isUuidChar`). -/
def validate_uuid (s : String) : Bool :=
  s.length == 36 && (s.toList.enum.all fun ci => isUuidChar ci.1 ci.2)

/-- A node record of the archive. `pk` is the archive-local id; `extras` and
`node_type` are the fields the embedding tracks. -/
structure ArchNode where
  pk : Nat
  uuid : String
  node_type : String
  extras : List (String × Int)
deriving DecidableEq, Repr

/-- A group record of the archive. -/
structure ArchGroup where
  pk : Nat
  uuid : String
  label : String
deriving DecidableEq, Repr

/-- A comment record of the archive. -/
structure ArchComment where
  pk : Nat
  uuid : String
  mtime : Int
  content : String
deriving DecidableEq, Repr

/-- The archive contents consumed by the import run, i.e. the reader
interface: entity records by kind, link records, group-membership records
(group uuid with member node uuids), the set of entity-type names present and
the foreign-key dependency metadata (entity type, required type) from
`metadata.all_fields_info`. -/
structure Archive where
  nodes : List ArchNode
  groups : List ArchGroup
  comments : List ArchComment
  links : List LinkRec
  groupMembers : List (String × List String)
  entityNames : List String
  requiresMeta : List (String × String)
deriving DecidableEq, Repr

/-- `reader.iter_node_uuids()`: the node UUIDs present in the archive. -/
def import_nodes_uuid (ar : Archive) : List String :=
  ar.nodes.map (fun n => n.uuid)

/-- The dangling-reference pre-check set: node UUIDs referenced as link
endpoints or group members, filtered through `validate_uuid`, minus the node
UUIDs present in the archive (`unknown_nodes` in `import_data_dj`). -/
def unknown_nodes (ar : Archive) : List String :=
  ((((ar.links.map fun l => [l.input, l.output]).flatten ++
      (ar.groupMembers.map Prod.snd).flatten).filter validate_uuid).filter
    (fun u => u ∉ import_nodes_uuid ar)).dedup

/-- The dangling-reference pre-check of `import_data_dj`: fail with
`DanglingLinkError` when the remainder is non-empty and unknown nodes are not
ignored. -/
def danglingPrecheck (ignore_unknown_nodes : Bool) (ar : Archive) : Except ImpError Unit :=
  if unknown_nodes ar ≠ [] ∧ ¬ ignore_unknown_nodes then
    .error (.danglingLink (unknown_nodes ar))
  else .ok ()

/-- The fixed entity import order of `import_data_dj`. -/
def entity_order : List String :=
  ["User", "Computer", "Node", "Group", "Log", "Comment"]

/-- The unknown-model check of `import_data_dj`: every entity type present in
the archive must belong to the known enumeration. -/
def checkEntityNames (ar : Archive) : Except ImpError Unit :=
  if ∀ n ∈ ar.entityNames, n ∈ entity_order then .ok ()
  else .error (.importValidation "You are trying to import an unknown model")

/-- The dependency-order double-check of `import_data_dj`: each entity type's
required types (from `metadata.all_fields_info`) must appear strictly earlier
in `entity_order` than the entity itself. -/
def checkDependencies (ar : Archive) : Except ImpError Unit :=
  if ar.requiresMeta.all (fun p => p.2 ∈ entity_order.take (entity_order.indexOf p.1)) then
    .ok ()
  else .error (.archiveImport "entity requires a type that would be loaded first")

/-- Modelled from the spec: `DUPL_SUFFIX` from
`aiida.tools.importexport.common.config` is not under `src/`; it is the
deterministic disambiguating suffix with the incrementing counter filled in. -/
def DUPL_SUFFIX (n : Nat) : String :=
  " (Imported #" ++ toString n ++ ")"

/-- Modelled from the spec: `MAX_GROUPS` from
`dbimport.backends.common` is not under `src/`; the bounded number of
disambiguation attempts for colliding group labels. -/
def MAX_GROUPS : Nat := 100

/-- The group-label disambiguation `while` loop of `_select_entity_data`
(entity `Group`): while the candidate label is taken in the database, replace
it with the original plus the suffix of the incrementing counter, raising
`ImportUniquenessError` once the counter reaches `MAX_GROUPS`.  `fuel` is the
structural bound; the loop is always entered with `counter + fuel = MAX_GROUPS`
so fuel exhaustion is unreachable (it mirrors the raise for uniformity). -/
def disambLoop (dbLabels : List String) (orig : String) :
    String → Nat → Nat → Except ImpError String
  | _, _, 0 => .error (.importUniqueness orig)
  | label, counter, fuel + 1 =>
    if label ∈ dbLabels then
      if counter + 1 = MAX_GROUPS then .error (.importUniqueness orig)
      else disambLoop dbLabels orig (orig ++ DUPL_SUFFIX counter) (counter + 1) fuel
    else .ok label

/-- Label disambiguation for one archive group record, against the labels
present in the database. -/
def disambiguateGroupLabel (dbLabels : List String) (orig : String) :
    Except ImpError String :=
  disambLoop dbLabels orig orig 0 MAX_GROUPS

/-- Result of `_select_entity_data` for one entity kind: the `new_entries` and
`existing_entries` buckets (archive-local pk with the record fields) and the
seeded `foreign_ids_reverse_mappings` (unique id to storage pk). -/
structure SelGroups where
  newGroups : List (Nat × ArchGroup)
  exisGroups : List (Nat × ArchGroup)
  groupMap : List (String × Nat)
deriving DecidableEq, Repr

/-- The loop body of `_select_entity_data` for groups: disambiguate the label
against the database, then classify by uuid membership in the batched
existence-query result. -/
def selectGroupsLoop (dbGroups : List DbGroup) (relevantUuids : List String) :
    SelGroups → List ArchGroup → Except ImpError SelGroups
  | acc, [] => .ok acc
  | acc, g :: gs =>
    match disambiguateGroupLabel (dbGroups.map (fun d => d.label)) g.label with
    | .error e => .error e
    | .ok label2 =>
      let g2 : ArchGroup := { g with label := label2 }
      let acc2 :=
        if g.uuid ∈ relevantUuids then { acc with exisGroups := acc.exisGroups ++ [(g.pk, g2)] }
        else { acc with newGroups := acc.newGroups ++ [(g.pk, g2)] }
      selectGroupsLoop dbGroups relevantUuids acc2 gs

/-- `_select_entity_data` at entity `Group`: seed the reverse mapping from the
batched existence query (database groups whose uuid occurs in the archive),
then run the per-record loop. -/
def selectGroups (dbGroups : List DbGroup) (ars : List ArchGroup) :
    Except ImpError SelGroups :=
  let importUuids := ars.map (fun g => g.uuid)
  let relevant := dbGroups.filter (fun d => d.uuid ∈ importUuids)
  selectGroupsLoop dbGroups (relevant.map (fun d => d.uuid))
    ⟨[], [], relevant.map (fun d => (d.uuid, d.pk))⟩ ars

/-- Result of `_select_entity_data` for nodes. -/
structure SelNodes where
  newNodes : List (Nat × ArchNode)
  exisNodes : List (Nat × ArchNode)
  nodeMap : List (String × Nat)
deriving DecidableEq, Repr

/-- `_sanitize_extras` and `_strip_checkpoints` live in
`dbimport.backends.common`, not under `src/`.  On the typed embedding the
extras payload is well-formed by construction and checkpoints are attribute
fields that the embedding does not carry, so both normalizations are the
identity here. -/
def sanitizeAndStrip (n : ArchNode) : ArchNode := n

/-- `_select_entity_data` at entity `Node`: seed the reverse mapping from the
batched existence query, classify each record by uuid, and on new records
apply extras sanitization, checkpoint stripping and the `extras_mode_new`
policy (dropping extras unless the mode is `import`). -/
def selectNodes (extras_mode_new : String) (dbNodes : List DbNode)
    (ars : List ArchNode) : SelNodes :=
  let importUuids := ars.map (fun n => n.uuid)
  let relevant := dbNodes.filter (fun d => d.uuid ∈ importUuids)
  let relevantUuids := relevant.map (fun d => d.uuid)
  { newNodes := (ars.filter (fun n => n.uuid ∉ relevantUuids)).map fun n =>
      let n2 := sanitizeAndStrip n
      let n3 := if extras_mode_new ≠ "import" then { n2 with extras := [] } else n2
      (n.pk, n3)
    exisNodes := (ars.filter (fun n => n.uuid ∈ relevantUuids)).map (fun n => (n.pk, n))
    nodeMap := relevant.map (fun d => (d.uuid, d.pk)) }

/-- Result of `_select_entity_data` for comments. -/
structure SelComments where
  newComments : List (Nat × ArchComment)
  exisComments : List (Nat × ArchComment)
  commentMap : List (String × Nat)
deriving DecidableEq, Repr

/-- `_select_entity_data` at entity `Comment` (the generic path: no special
cases). -/
def selectComments (dbComments : List DbComment) (ars : List ArchComment) :
    SelComments :=
  let importUuids := ars.map (fun c => c.uuid)
  let relevant := dbComments.filter (fun d => d.uuid ∈ importUuids)
  let relevantUuids := relevant.map (fun d => d.uuid)
  { newComments := (ars.filter (fun c => c.uuid ∉ relevantUuids)).map (fun c => (c.pk, c))
    exisComments := (ars.filter (fun c => c.uuid ∈ relevantUuids)).map (fun c => (c.pk, c))
    commentMap := relevant.map (fun d => (d.uuid, d.pk)) }

/-- Modelled from the spec: `merge_extras` from `dbimport.utils` is not under
`src/`.  The mode is three letters: the first `k`/`n` keeps or drops existing
keys absent from the imported payload, the second `c`/`n` creates or ignores
imported keys absent from the existing payload, the third `l`/`u`/`d`/`a`
acts on collisions (leave the old value, update to the new one, delete the
key, or ask -- interactive, modelled as leaving equal values and failing on
divergent ones).  Any other mode string is a validation error. -/
def merge_extras (oldE newE : List (String × Int)) (mode : String) :
    Except ImpError (List (String × Int)) :=
  match mode.toList with
  | [a, b, c] =>
    if ((a == 'k' || a == 'n') && (b == 'c' || b == 'n') &&
        (c == 'l' || c == 'u' || c == 'd' || c == 'a')) = false then
      .error (.importValidation ("Unknown extras mode: " ++ mode))
    else
      let oldOnly := oldE.filter (fun p => (newE.lookup p.1).isNone)
      let newOnly := newE.filter (fun p => (oldE.lookup p.1).isNone)
      let collOld := oldE.filter (fun p => (newE.lookup p.1).isSome)
      if c == 'a' && collOld.any (fun p => (newE.lookup p.1).getD p.2 ≠ p.2) then
        .error (.importValidation "unable to ask about contrasting extras")
      else
        let keep1 := if a == 'k' then oldOnly else []
        let keep2 := if b == 'c' then newOnly else []
        let coll :=
          if c == 'u' then collOld.map (fun p => (p.1, (newE.lookup p.1).getD p.2))
          else if c == 'd' then []
          else collOld
        .ok (keep1 ++ coll ++ keep2)
  | _ => .error (.importValidation ("Unknown extras mode: " ++ mode))

/-- Result of `_store_entity_data` for one entity kind: the mutated storage,
the extended reverse mapping and the two `ret_dict` lists. -/
structure StoreNodesRes where
  storage : Storage
  nodeMap : List (String × Nat)
  retNew : List (Nat × Nat)
  retExis : List (Nat × Nat)
deriving DecidableEq, Repr

/-- `_store_entity_data` at entity `Node`: record the `ret_dict` pairs for the
existing entries, merge the extras of existing nodes under
`extras_mode_existing` (saving the row exactly when the merge changes it, so
the resulting table is the same either way), then bulk-create the new rows
with sequentially assigned pks (the repository copy for new nodes is the
external collaborator and does not touch this storage; the `mtime` auto-now
suppression is the identity here since assigned pks and fields are kept),
re-fetch the assigned pks and extend the reverse mapping. -/
def storeNodes (extras_mode_existing : String) (sel : SelNodes) (st : Storage) :
    Except ImpError StoreNodesRes := do
  let retExis ← sel.exisNodes.mapM (fun pc =>
    match sel.nodeMap.lookup pc.2.uuid with
    | some pk => Except.ok (pc.1, pk)
    | none => Except.error (ImpError.keyError pc.2.uuid))
  let updatedNodes ← st.nodes.mapM (fun n =>
    match sel.exisNodes.find? (fun pc => pc.2.uuid == n.uuid) with
    | some pc => (merge_extras n.extras pc.2.extras extras_mode_existing).map
        (fun ne => { n with extras := ne })
    | none => Except.ok n)
  let created := sel.newNodes.enum.map (fun ipc =>
    (⟨st.nextPk + ipc.1, ipc.2.2.uuid, ipc.2.2.node_type, ipc.2.2.extras⟩ : DbNode))
  Except.ok
    ⟨{ st with nodes := updatedNodes ++ created, nextPk := st.nextPk + created.length },
      sel.nodeMap ++ sel.newNodes.enum.map (fun ipc => (ipc.2.2.uuid, st.nextPk + ipc.1)),
      sel.newNodes.enum.map (fun ipc => (ipc.2.1, st.nextPk + ipc.1)), retExis⟩

/-- Result of `_store_entity_data` for groups. -/
structure StoreGroupsRes where
  storage : Storage
  groupMap : List (String × Nat)
  retNew : List (Nat × Nat)
  retExis : List (Nat × Nat)
deriving DecidableEq, Repr

/-- `_store_entity_data` at entity `Group` (the generic path: no content merge
for existing entries; bulk-create the new ones and extend the mapping). -/
def storeGroups (sel : SelGroups) (st : Storage) : Except ImpError StoreGroupsRes := do
  let retExis ← sel.exisGroups.mapM (fun pc =>
    match sel.groupMap.lookup pc.2.uuid with
    | some pk => Except.ok (pc.1, pk)
    | none => Except.error (ImpError.keyError pc.2.uuid))
  let created := sel.newGroups.enum.map (fun ipc =>
    (⟨st.nextPk + ipc.1, ipc.2.2.uuid, ipc.2.2.label⟩ : DbGroup))
  Except.ok
    ⟨{ st with groups := st.groups ++ created, nextPk := st.nextPk + created.length },
      sel.groupMap ++ sel.newGroups.enum.map (fun ipc => (ipc.2.2.uuid, st.nextPk + ipc.1)),
      sel.newGroups.enum.map (fun ipc => (ipc.2.1, st.nextPk + ipc.1)), retExis⟩

/-- Modelled from the spec: the regenerated unique identifier given to a
comment redirected into the new-entries bucket (a fresh uuid4 draw in the
source), represented deterministically from the archive-local id. -/
def freshUuid (pk : Nat) : String :=
  "regenerated-" ++ toString pk

/-- Modelled from the spec: `merge_comment` from `dbimport.utils` is not under
`src/`.  Mode `newest` keeps whichever of existing/imported has the later
modification time: when the imported one is strictly newer the existing row's
content (and mtime) is replaced and `none` is returned, otherwise the row is
untouched and the regenerated identifier `fresh` is returned so the caller
redirects the imported comment into the new-entries bucket.  Mode `overwrite`
replaces unconditionally.  Other modes are a validation error. -/
def merge_comment (existing : DbComment) (imp : ArchComment) (mode : String)
    (fresh : String) : Except ImpError (DbComment × Option String) :=
  if mode == "newest" then
    if existing.mtime < imp.mtime then
      .ok ({ existing with content := imp.content, mtime := imp.mtime }, none)
    else .ok (existing, some fresh)
  else if mode == "overwrite" then
    .ok ({ existing with content := imp.content, mtime := imp.mtime }, none)
  else .error (.importValidation ("Unknown comment_mode value: " ++ mode))

/-- The existing-entries loop of `_store_entity_data` at entity `Comment`
(source lines 397-422): look up the existing row, apply `merge_comment`, and
when it returns a regenerated identifier append the entry -- with that
identifier substituted -- to the new-entries bucket; the `ret_dict` existing
pair is recorded in every case. -/
def commentsExistingLoop (mode : String) (commentMap : List (String × Nat)) :
    List DbComment → List (Nat × ArchComment) → List (Nat × Nat) →
    List (Nat × ArchComment) →
    Except ImpError (List DbComment × List (Nat × ArchComment) × List (Nat × Nat))
  | table, redirected, retExis, [] => .ok (table, redirected, retExis)
  | table, redirected, retExis, (pk, c) :: rest =>
    match commentMap.lookup c.uuid with
    | none => .error (.keyError c.uuid)
    | some existing_id =>
      match table.find? (fun d => d.uuid == c.uuid) with
      | none => .error (.doesNotExist c.uuid)
      | some row =>
        match merge_comment row c mode (freshUuid pk) with
        | .error e => .error e
        | .ok (row2, redirect) =>
          let table2 := table.map (fun d => if d.pk == row.pk then row2 else d)
          let redirected2 := match redirect with
            | some u => redirected ++ [(pk, { c with uuid := u })]
            | none => redirected
          commentsExistingLoop mode commentMap table2 redirected2
            (retExis ++ [(pk, existing_id)]) rest

/-- Result of `_store_entity_data` for comments. -/
structure StoreCommentsRes where
  storage : Storage
  commentMap : List (String × Nat)
  retNew : List (Nat × Nat)
  retExis : List (Nat × Nat)
deriving DecidableEq, Repr

/-- `_store_entity_data` at entity `Comment`: run the existing-entries loop
(which may redirect entries into the new bucket), then bulk-create the new
entries -- original ones first, redirected ones after, matching the dict
insertion order of the source -- and extend the reverse mapping. -/
def storeComments (mode : String) (sel : SelComments) (st : Storage) :
    Except ImpError StoreCommentsRes := do
  let r ← commentsExistingLoop mode sel.commentMap st.comments [] [] sel.exisComments
  let newAll := sel.newComments ++ r.2.1
  let created := newAll.enum.map (fun ipc =>
    (⟨st.nextPk + ipc.1, ipc.2.2.uuid, ipc.2.2.mtime, ipc.2.2.content⟩ : DbComment))
  Except.ok
    ⟨{ st with comments := r.1 ++ created, nextPk := st.nextPk + created.length },
      sel.commentMap ++ newAll.enum.map (fun ipc => (ipc.2.2.uuid, st.nextPk + ipc.1)),
      newAll.enum.map (fun ipc => (ipc.2.1, st.nextPk + ipc.1)), r.2.2⟩

/-- The loop of `_add_nodes_to_groups`: skip empty member sets, fetch the
group row by uuid (`DbGroup.objects.get`), resolve every member uuid through
the node reverse mapping -- an unresolved member is an uncaught `KeyError` --
and attach the resolved pks to the group. -/
def addNodesToGroupsLoop (nodeMap : List (String × Nat)) :
    Storage → List (String × List String) → Except ImpError Storage
  | st, [] => .ok st
  | st, (guuid, gnodes) :: rest =>
    if gnodes.isEmpty then addNodesToGroupsLoop nodeMap st rest
    else
      match st.groups.find? (fun g => g.uuid == guuid) with
      | none => .error (.doesNotExist guuid)
      | some g =>
        match gnodes.mapM (fun u =>
          match nodeMap.lookup u with
          | some pk => Except.ok pk
          | none => Except.error (ImpError.keyError u)) with
        | .error e => .error e
        | .ok pks =>
          addNodesToGroupsLoop nodeMap
            { st with groupMembers := st.groupMembers ++ pks.map (fun p => (g.pk, p)) } rest

/-- `_add_nodes_to_groups`: early return when the archive holds no group
entities, otherwise run the loop over the group-membership records. -/
def add_nodes_to_groups (groupCount : Nat) (groupMembers : List (String × List String))
    (nodeMap : List (String × Nat)) (st : Storage) : Except ImpError Storage :=
  if groupCount == 0 then .ok st
  else addNodesToGroupsLoop nodeMap st groupMembers

/-- The caller-supplied target group of `import_data_dj`: `is_stored` tells
whether it is already persisted. -/
structure TargetGroup where
  uuid : String
  label : String
  is_stored : Bool
deriving DecidableEq, Repr

/-- The `group.store()` call of the initial checks of `import_data_dj`:
persist the caller's target group when it is not stored yet (this happens
before the pre-flight checks and outside the main transaction). -/
def storeTargetGroup (g : Option TargetGroup) (st : Storage) : Storage :=
  match g with
  | some tg =>
    if tg.is_stored then st
    else
      let row : DbGroup := ⟨st.nextPk, tg.uuid, tg.label⟩
      { st with groups := st.groups ++ [row], nextPk := st.nextPk + 1 }
  | none => st

/-- Modelled from the spec: `_make_import_group` from
`dbimport.backends.common` is not under `src/`.  In a separate transaction
after the main one commits, create (or reuse, when the caller supplied one)
the import group and add every node pk of the run to it; the generated label
of a fresh import group is represented by a fixed placeholder. -/
def makeImportGroup (g : Option TargetGroup) (pks : List Nat) (st : Storage) : Storage :=
  match g with
  | some tg =>
    match st.groups.find? (fun d => d.uuid == tg.uuid) with
    | some row => { st with groupMembers := st.groupMembers ++ pks.map (fun p => (row.pk, p)) }
    | none => st
  | none =>
    let row : DbGroup := ⟨st.nextPk, "import-group-uuid", "import-group-label"⟩
    { st with
      groups := st.groups ++ [row]
      groupMembers := st.groupMembers ++ pks.map (fun p => (st.nextPk, p))
      nextPk := st.nextPk + 1 }

/-- The caller-facing arguments of `import_data_dj`. -/
structure Args where
  group : Option TargetGroup
  ignore_unknown_nodes : Bool
  extras_mode_existing : String
  extras_mode_new : String
  comment_mode : String
deriving DecidableEq, Repr

/-- The returned `ret_dict`: per entity kind the new and existing
(archive-local id, storage pk) pairs, plus the new links. -/
structure RetDict where
  nodesNew : List (Nat × Nat)
  nodesExisting : List (Nat × Nat)
  groupsNew : List (Nat × Nat)
  groupsExisting : List (Nat × Nat)
  commentsNew : List (Nat × Nat)
  commentsExisting : List (Nat × Nat)
  linksNew : List (Nat × Nat)
deriving DecidableEq, Repr

/-- The `pks_for_group` computation of `import_data_dj`: the storage pk of
every node entry of the run, existing entries first, looked up by uuid in the
node reverse mapping (dict indexing: an absent uuid is an uncaught
`KeyError`). -/
def pksForGroup (sel : SelNodes) (nodeMap : List (String × Nat)) :
    Except ImpError (List Nat) :=
  (sel.exisNodes ++ sel.newNodes).mapM (fun pc =>
    match nodeMap.lookup pc.2.uuid with
    | some pk => Except.ok pk
    | none => Except.error (ImpError.keyError pc.2.uuid))

/-- The body of the single `transaction.atomic()` block of `import_data_dj`:
classification for all kinds in entity order, materialization in entity
order, the pk list for the import group, link materialization and group
membership.  Returns the mutated storage, the `ret_dict` and the node pks. -/
def transactionBody (args : Args) (ar : Archive) (st : Storage) :
    Except ImpError (Storage × RetDict × List Nat) := do
  let selN := selectNodes args.extras_mode_new st.nodes ar.nodes
  let selG ← selectGroups st.groups ar.groups
  let selC := selectComments st.comments ar.comments
  let rn ← storeNodes args.extras_mode_existing selN st
  let rg ← storeGroups selG rn.storage
  let rc ← storeComments args.comment_mode selC rg.storage
  let pks ← pksForGroup selN rn.nodeMap
  let r ← store_node_links args.ignore_unknown_nodes rn.nodeMap ar.links rc.storage
  let st3 ← add_nodes_to_groups ar.groups.length ar.groupMembers rn.nodeMap r.1
  Except.ok (st3,
    ⟨rn.retNew, rn.retExis, rg.retNew, rg.retExis, rc.retNew, rc.retExis, r.2⟩, pks)

/-- The part of `import_data_dj` after the initial argument checks and
target-group storing: the read-only pre-flight checks (dangling-reference
pre-check, unknown-model check, dependency-order check), then the whole import
inside one atomic transaction -- an error anywhere in the body rolls the
storage back to `st1`, the transaction-start snapshot -- and finally the
import-group attachment in its own transaction.  Returns the result together
with the storage state visible after the call, also on error (modelling the
state after the exception propagates to the caller). -/
def importDataChecked (args : Args) (ar : Archive) (st1 : Storage) :
    Except ImpError RetDict × Storage :=
  match danglingPrecheck args.ignore_unknown_nodes ar with
  | .error e => (.error e, st1)
  | .ok _ =>
    match checkEntityNames ar with
    | .error e => (.error e, st1)
    | .ok _ =>
      match checkDependencies ar with
      | .error e => (.error e, st1)
      | .ok _ =>
        match transactionBody args ar st1 with
        | .error e => (.error e, st1)
        | .ok (st2, ret, pks) => (.ok ret, makeImportGroup args.group pks st2)

/-- `import_data_dj` top level: validate `extras_mode_new`, store the target
group, then run the checked part above. -/
def importData (args : Args) (ar : Archive) (st0 : Storage) :
    Except ImpError RetDict × Storage :=
  if ¬ (args.extras_mode_new = "import" ∨ args.extras_mode_new = "none") then
    (.error (.importValidation ("Unknown extras_mode_new value: " ++ args.extras_mode_new)), st0)
  else
    importDataChecked args ar (storeTargetGroup args.group st0)

/-- An outgoing-cardinality violation as checked by `_store_node_links`. -/
def outViolation (st : LinkState) (in_id : Nat) (lbl ty : String) (deg : Degree) : Prop :=
  (deg = .unique ∧ (in_id, ty) ∈ st.existing_outgoing_unique) ∨
  (deg = .uniquePair ∧ (in_id, lbl, ty) ∈ st.existing_outgoing_unique_pair)

/-- An incoming-cardinality violation as checked by `_store_node_links`. -/
def inViolation (st : LinkState) (out_id : Nat) (lbl ty : String) (deg : Degree) : Prop :=
  (deg = .unique ∧ (out_id, ty) ∈ st.existing_incoming_unique) ∨
  (deg = .uniquePair ∧ (out_id, lbl, ty) ∈ st.existing_incoming_unique_pair)

instance (st : LinkState) (in_id : Nat) (lbl ty : String) (deg : Degree) :
    Decidable (outViolation st in_id lbl ty deg) := by
  unfold outViolation; infer_instance

instance (st : LinkState) (out_id : Nat) (lbl ty : String) (deg : Degree) :
    Decidable (inViolation st out_id lbl ty deg) := by
  unfold inViolation; infer_instance

/-- Reduction of `storeOneLink` to the cardinality checks, for a candidate
link that passed endpoint resolution, the duplicate check, label validation,
the self-loop check, link-type conversion and endpoint-class validation. -/
theorem storeOneLink_card (nodes : List DbNode) (nodeMap : List (String × Nat))
    (ig : Bool) (st : LinkState) (link : LinkRec) (in_id out_id : Nat)
    (source target : DbNode) (lt : LinkTy)
    (h1 : nodeMap.lookup link.input = some in_id)
    (h2 : nodeMap.lookup link.output = some out_id)
    (h3 : (in_id, out_id, link.label, link.ltype) ∉ st.existing_links)
    (h4 : validate_link_label link.label = true)
    (h5 : getNode nodes in_id = some source)
    (h6 : getNode nodes out_id = some target)
    (h7 : (source.uuid == target.uuid) = false)
    (h8 : LinkTy.ofString link.ltype = some lt)
    (h9 : startsWithStr source.node_type (link_mapping lt).1 = true)
    (h10 : startsWithStr target.node_type (link_mapping lt).2.1 = true) :
    storeOneLink nodes nodeMap ig st link =
      (if (link_mapping lt).2.2.1 = .unique ∧
          (in_id, link.ltype) ∈ st.existing_outgoing_unique then
        .error (.outgoingUnique source.uuid link.ltype)
      else if (link_mapping lt).2.2.1 = .uniquePair ∧
          (in_id, link.label, link.ltype) ∈ st.existing_outgoing_unique_pair then
        .error (.outgoingUniquePair source.uuid link.ltype link.label)
      else if (link_mapping lt).2.2.2 = .unique ∧
          (out_id, link.ltype) ∈ st.existing_incoming_unique then
        .error (.incomingUnique target.uuid link.ltype)
      else if (link_mapping lt).2.2.2 = .uniquePair ∧
          (out_id, link.label, link.ltype) ∈ st.existing_incoming_unique_pair then
        .error (.incomingUniquePair target.uuid link.ltype link.label)
      else .ok (acceptLink st in_id out_id link.label link.ltype)) := by
  simp only [storeOneLink, h1, h2, h5, h6, h7, h8, h4]
  rw [if_neg h3]
  simp [h9, h10]

/-- C3.  For a candidate link that is not an exact duplicate (and that passed
the stages preceding cardinality validation), validation behaves per the link
type's declared classes: out-degree `unique` raises when the source already
has any outgoing link of the same type, out-degree `unique_pair` raises when
one with the same type and label exists, and symmetrically for in-degree
(checked after the out-degree checks); `unique_triple` imposes no constraint;
an accepted link is added to all in-memory index sets via `acceptLink` so
later links of the same run see it as existing. -/
theorem C3_cardinality (nodes : List DbNode) (nodeMap : List (String × Nat))
    (ig : Bool) (st : LinkState) (link : LinkRec) (in_id out_id : Nat)
    (source target : DbNode) (lt : LinkTy)
    (h1 : nodeMap.lookup link.input = some in_id)
    (h2 : nodeMap.lookup link.output = some out_id)
    (h3 : (in_id, out_id, link.label, link.ltype) ∉ st.existing_links)
    (h4 : validate_link_label link.label = true)
    (h5 : getNode nodes in_id = some source)
    (h6 : getNode nodes out_id = some target)
    (h7 : (source.uuid == target.uuid) = false)
    (h8 : LinkTy.ofString link.ltype = some lt)
    (h9 : startsWithStr source.node_type (link_mapping lt).1 = true)
    (h10 : startsWithStr target.node_type (link_mapping lt).2.1 = true) :
    ((link_mapping lt).2.2.1 = .unique →
      (in_id, link.ltype) ∈ st.existing_outgoing_unique →
      storeOneLink nodes nodeMap ig st link =
        .error (.outgoingUnique source.uuid link.ltype)) ∧
    ((link_mapping lt).2.2.1 = .uniquePair →
      (in_id, link.label, link.ltype) ∈ st.existing_outgoing_unique_pair →
      storeOneLink nodes nodeMap ig st link =
        .error (.outgoingUniquePair source.uuid link.ltype link.label)) ∧
    (¬ outViolation st in_id link.label link.ltype (link_mapping lt).2.2.1 →
      (link_mapping lt).2.2.2 = .unique →
      (out_id, link.ltype) ∈ st.existing_incoming_unique →
      storeOneLink nodes nodeMap ig st link =
        .error (.incomingUnique target.uuid link.ltype)) ∧
    (¬ outViolation st in_id link.label link.ltype (link_mapping lt).2.2.1 →
      (link_mapping lt).2.2.2 = .uniquePair →
      (out_id, link.label, link.ltype) ∈ st.existing_incoming_unique_pair →
      storeOneLink nodes nodeMap ig st link =
        .error (.incomingUniquePair target.uuid link.ltype link.label)) ∧
    (¬ outViolation st in_id link.label link.ltype (link_mapping lt).2.2.1 →
      ¬ inViolation st out_id link.label link.ltype (link_mapping lt).2.2.2 →
      storeOneLink nodes nodeMap ig st link =
        .ok (acceptLink st in_id out_id link.label link.ltype)) ∧
    ((link_mapping lt).2.2.1 = .uniqueTriple →
      ¬ outViolation st in_id link.label link.ltype (link_mapping lt).2.2.1) ∧
    ((link_mapping lt).2.2.2 = .uniqueTriple →
      ¬ inViolation st out_id link.label link.ltype (link_mapping lt).2.2.2) := by
  have hc := storeOneLink_card nodes nodeMap ig st link in_id out_id source target lt
    h1 h2 h3 h4 h5 h6 h7 h8 h9 h10
  refine ⟨?_, ?_, ?_, ?_, ?_, ?_, ?_⟩
  · intro hd hm
    rw [hc, if_pos ⟨hd, hm⟩]
  · intro hd hm
    rw [hc, if_neg (by rintro ⟨h, -⟩; rw [hd] at h; exact Degree.noConfusion h),
      if_pos ⟨hd, hm⟩]
  · intro hov hd hm
    rw [hc, if_neg (fun h => hov (Or.inl h)), if_neg (fun h => hov (Or.inr h)),
      if_pos ⟨hd, hm⟩]
  · intro hov hd hm
    rw [hc, if_neg (fun h => hov (Or.inl h)), if_neg (fun h => hov (Or.inr h)),
      if_neg (by rintro ⟨h, -⟩; rw [hd] at h; exact Degree.noConfusion h),
      if_pos ⟨hd, hm⟩]
  · intro hov hiv
    rw [hc, if_neg (fun h => hov (Or.inl h)), if_neg (fun h => hov (Or.inr h)),
      if_neg (fun h => hiv (Or.inl h)), if_neg (fun h => hiv (Or.inr h))]
  · intro hd
    rintro (⟨h, -⟩ | ⟨h, -⟩) <;> (rw [hd] at h; exact Degree.noConfusion h)
  · intro hd
    rintro (⟨h, -⟩ | ⟨h, -⟩) <;> (rw [hd] at h; exact Degree.noConfusion h)

/-- C8.  During link materialization, a link with an endpoint uuid absent from
the node reverse mapping is dropped silently (no state change) when
unknown-node skipping is enabled, and otherwise raises the fatal dangling-link
validation error naming the link's input and output identifiers, label and
type. -/
theorem C8_dangling (nodes : List DbNode) (nodeMap : List (String × Nat)) (ig : Bool)
    (st : LinkState) (link : LinkRec)
    (h : nodeMap.lookup link.input = none ∨ nodeMap.lookup link.output = none) :
    storeOneLink nodes nodeMap ig st link =
      (if ig then .ok st
       else .error (.linkDangling link.input link.output link.label link.ltype)) := by
  rcases hx : nodeMap.lookup link.input with _ | i <;>
    rcases hy : nodeMap.lookup link.output with _ | o <;>
      simp [storeOneLink, hx, hy] at h ⊢

def uuidEx1 : String := "00000000-0000-0000-0000-000000000001"

def uuidEx2 : String := "00000000-0000-0000-0000-000000000002"

def uuidEx3 : String := "00000000-0000-0000-0000-000000000003"

def uuidExA : String := "00000000-0000-0000-0000-00000000000a"

def exNodes : List DbNode :=
  [⟨1, uuidEx1, "process.workflow.workchain", []⟩,
   ⟨2, uuidEx2, "process.calculation.calcjob", []⟩,
   ⟨3, uuidEx3, "data.int", []⟩]

def exNodeMap : List (String × Nat) := [(uuidEx1, 1), (uuidEx2, 2), (uuidEx3, 3)]

/-- Witness for C8 at a concrete unresolvable link, in skipping mode. -/
theorem C8_dangling_witness :
    storeOneLink exNodes exNodeMap true (initLinkState [])
        ⟨"zz", uuidEx2, "lbl", "create"⟩ =
      (if true then .ok (initLinkState [])
       else .error (.linkDangling "zz" uuidEx2 "lbl" "create")) :=
  C8_dangling exNodes exNodeMap true (initLinkState [])
    ⟨"zz", uuidEx2, "lbl", "create"⟩ (Or.inl (by decide))

/-- C9.  A link whose resolved 4-tuple is already present in the in-memory
existing-link set is skipped as a no-op before label validation, the
self-loop check, endpoint-class validation and cardinality validation: the
state is returned unchanged and no error can be raised, whatever the label,
endpoints or type. -/
theorem C9_duplicate_skip (nodes : List DbNode) (nodeMap : List (String × Nat))
    (ig : Bool) (st : LinkState) (link : LinkRec) (in_id out_id : Nat)
    (h1 : nodeMap.lookup link.input = some in_id)
    (h2 : nodeMap.lookup link.output = some out_id)
    (h3 : (in_id, out_id, link.label, link.ltype) ∈ st.existing_links) :
    storeOneLink nodes nodeMap ig st link = .ok st := by
  simp [storeOneLink, h1, h2, h3]

/-- Witness for C9: a duplicate whose label is invalid (space and bang) is
still skipped without error. -/
theorem C9_duplicate_skip_witness :
    storeOneLink exNodes exNodeMap false (initLinkState [⟨1, 2, "bad label!", "call_calc"⟩])
        ⟨uuidEx1, uuidEx2, "bad label!", "call_calc"⟩ =
      .ok (initLinkState [⟨1, 2, "bad label!", "call_calc"⟩]) :=
  C9_duplicate_skip exNodes exNodeMap false
    (initLinkState [⟨1, 2, "bad label!", "call_calc"⟩])
    ⟨uuidEx1, uuidEx2, "bad label!", "call_calc"⟩ 1 2
    (by decide) (by decide) (by decide)

/-- C4 counterexample.  The claim says a self-loop link record always raises a
fatal error regardless of link type; but the exact-duplicate check runs
before the self-loop check, so a self-loop that duplicates a link already in
storage is skipped silently: here the archive record with identical source and
target uuid returns the state unchanged with no error. -/
theorem C4_counterexample :
    storeOneLink [⟨5, uuidEx1, "data.int", []⟩] [(uuidEx1, 5)] false
        (initLinkState [⟨5, 5, "l", "create"⟩]) ⟨uuidEx1, uuidEx1, "l", "create"⟩ =
      .ok (initLinkState [⟨5, 5, "l", "create"⟩]) := rfl

/-- C4 as amended.  A link record whose source and target identifiers are
identical raises the fatal self-loop error regardless of the link's type
string, provided it reaches the self-loop check: its endpoint resolves, it is
not an exact duplicate of an existing link, and its label is valid. -/
theorem C4_selfloop (nodes : List DbNode) (nodeMap : List (String × Nat)) (ig : Bool)
    (st : LinkState) (link : LinkRec) (in_id : Nat) (source : DbNode)
    (h1 : nodeMap.lookup link.input = some in_id)
    (heq : link.output = link.input)
    (h3 : (in_id, in_id, link.label, link.ltype) ∉ st.existing_links)
    (h4 : validate_link_label link.label = true)
    (h5 : getNode nodes in_id = some source) :
    storeOneLink nodes nodeMap ig st link = .error .linkToSelf := by
  have h2 : nodeMap.lookup link.output = some in_id := by rw [heq]; exact h1
  simp [storeOneLink, h1, h2, h3, h4, h5]

/-- Witness for the amended C4 at a concrete fresh self-loop of type
`call_calc`. -/
theorem C4_selfloop_witness :
    storeOneLink exNodes exNodeMap false (initLinkState [])
        ⟨uuidEx1, uuidEx1, "lbl", "call_calc"⟩ = .error .linkToSelf :=
  C4_selfloop exNodes exNodeMap false (initLinkState [])
    ⟨uuidEx1, uuidEx1, "lbl", "call_calc"⟩ 1
    ⟨1, uuidEx1, "process.workflow.workchain", []⟩
    (by decide) rfl (by decide) (by decide) (by decide)

/-- Witness for C3 at a concrete `call_calc` link whose target already has an
incoming link of that type (in-degree `unique`). -/
theorem C3_cardinality_witness :
    storeOneLink exNodes exNodeMap false (initLinkState [⟨9, 2, "x", "call_calc"⟩])
        ⟨uuidEx1, uuidEx2, "lbl", "call_calc"⟩ =
      .error (.incomingUnique uuidEx2 "call_calc") :=
  (C3_cardinality exNodes exNodeMap false (initLinkState [⟨9, 2, "x", "call_calc"⟩])
      ⟨uuidEx1, uuidEx2, "lbl", "call_calc"⟩ 1 2
      ⟨1, uuidEx1, "process.workflow.workchain", []⟩
      ⟨2, uuidEx2, "process.calculation.calcjob", []⟩ .callCalc
      (by decide) (by decide) (by decide) (by decide) (by decide) (by decide)
      (by decide) (by decide) (by decide) (by decide)).2.2.1
    (by decide) rfl (by decide)

/-- C10.  The dangling-reference pre-check filters link endpoints and group
members through the UUID-validity predicate before subtracting the archive's
node identifiers, so an identifier that is not a syntactically valid UUID is
never reported as dangling. -/
theorem C10_uuid_filter (ar : Archive) (s : String)
    (h : validate_uuid s = false) : s ∉ unknown_nodes ar := by
  intro hmem
  unfold unknown_nodes at hmem
  rw [List.mem_dedup, List.mem_filter] at hmem
  rw [List.mem_filter] at hmem
  have hv := hmem.1.2
  rw [h] at hv
  exact Bool.false_ne_true hv

def exArchiveBadUuid : Archive :=
  ⟨[], [], [], [⟨"zz", uuidEx2, "l", "create"⟩], [], [], []⟩

/-- Witness for C10: the link input identifier `zz` is not a valid UUID and is
not reported by the pre-check even though no node carries it. -/
theorem C10_uuid_filter_witness :
    validate_uuid "zz" = false ∧ "zz" ∉ unknown_nodes exArchiveBadUuid :=
  ⟨by decide, C10_uuid_filter exArchiveBadUuid "zz" (by decide)⟩

/-- C6.  Under `comment_mode = "newest"`, for an existing comment matched by
uuid: when the imported modification time is strictly later, the existing
row's content (and mtime) is replaced and nothing is redirected; when the
existing row is newer, it is left untouched and the imported comment is
redirected into the new-entries bucket carrying the regenerated unique
identifier. -/
theorem C6_comment_newest (pk dpk : Nat) (c : ArchComment) (ex : DbComment)
    (hu : ex.uuid = c.uuid) :
    (ex.mtime < c.mtime →
      commentsExistingLoop "newest" [(c.uuid, dpk)] [ex] [] [] [(pk, c)] =
        .ok ([{ ex with content := c.content, mtime := c.mtime }], [], [(pk, dpk)])) ∧
    (c.mtime < ex.mtime →
      commentsExistingLoop "newest" [(c.uuid, dpk)] [ex] [] [] [(pk, c)] =
        .ok ([ex], [(pk, { c with uuid := freshUuid pk })], [(pk, dpk)])) := by
  constructor
  · intro hlt
    simp [commentsExistingLoop, List.lookup, merge_comment, hu, hlt]
  · intro hlt
    have hge : ¬ ex.mtime < c.mtime := not_lt.mpr (le_of_lt hlt)
    simp [commentsExistingLoop, List.lookup, merge_comment, hu, hge]

/-- Witness for C6 at a concrete older imported comment (mtime 5 against 10):
the existing row stays, the import is redirected with the regenerated
identifier. -/
theorem C6_comment_newest_witness :
    commentsExistingLoop "newest" [(uuidEx1, 7)] [⟨7, uuidEx1, 10, "old"⟩] [] []
        [(42, ⟨42, uuidEx1, 5, "new"⟩)] =
      .ok ([⟨7, uuidEx1, 10, "old"⟩], [(42, ⟨42, freshUuid 42, 5, "new"⟩)], [(42, 7)]) :=
  (C6_comment_newest 42 7 ⟨42, uuidEx1, 5, "new"⟩ ⟨7, uuidEx1, 10, "old"⟩ rfl).2
    (by decide)

/-- A free candidate label ends the disambiguation loop immediately. -/
theorem disambLoop_not_mem (db : List String) (orig label : String) (counter fuel : Nat)
    (hf : 0 < fuel) (h : label ∉ db) :
    disambLoop db orig label counter fuel = .ok label := by
  cases fuel with
  | zero => exact absurd hf (by omega)
  | succ n => simp only [disambLoop]; rw [if_neg h]

/-- Shape of a successful disambiguation: the returned label is free in the
database and is either the candidate itself or the original label with the
deterministic suffix of some admissible counter value. -/
theorem disambLoop_ok (db : List String) (orig : String) :
    ∀ fuel label counter l, counter + fuel = MAX_GROUPS →
      disambLoop db orig label counter fuel = .ok l →
      l ∉ db ∧ (l = label ∨ ∃ k, counter ≤ k ∧ k + 1 < MAX_GROUPS ∧
        l = orig ++ DUPL_SUFFIX k) := by
  intro fuel
  induction fuel with
  | zero =>
    intro label counter l hsum h
    exact absurd h (by simp [disambLoop])
  | succ n ih =>
    intro label counter l hsum h
    simp only [disambLoop] at h
    by_cases hmem : label ∈ db
    · rw [if_pos hmem] at h
      by_cases hc : counter + 1 = MAX_GROUPS
      · rw [if_pos hc] at h; exact absurd h (by simp)
      · rw [if_neg hc] at h
        obtain ⟨hnotin, hsh⟩ := ih _ _ _ (by omega) h
        refine ⟨hnotin, Or.inr ?_⟩
        rcases hsh with rfl | ⟨k, hk, hklt, rfl⟩
        · exact ⟨counter, le_refl _, by omega, rfl⟩
        · exact ⟨k, by omega, hklt, rfl⟩
    · rw [if_neg hmem] at h
      cases h
      exact ⟨hmem, Or.inl rfl⟩

/-- When the original label and every admissible suffixed variant are taken,
the disambiguation loop exhausts its `MAX_GROUPS` attempts and raises the
uniqueness error. -/
theorem disambLoop_error (db : List String) (orig : String) :
    ∀ fuel counter label, counter + fuel = MAX_GROUPS → 0 < fuel →
      label ∈ db →
      (∀ k, counter ≤ k → k + 1 < MAX_GROUPS → orig ++ DUPL_SUFFIX k ∈ db) →
      disambLoop db orig label counter fuel = .error (.importUniqueness orig) := by
  intro fuel
  induction fuel with
  | zero =>
    intro counter label hsum hpos
    exact absurd hpos (by omega)
  | succ n ih =>
    intro counter label hsum hpos hmem hall
    simp only [disambLoop]
    rw [if_pos hmem]
    by_cases hc : counter + 1 = MAX_GROUPS
    · rw [if_pos hc]
    · rw [if_neg hc]
      exact ih (counter + 1) _ (by omega) (by omega)
        (hall counter (le_refl _) (by omega))
        (fun k hk hklt => hall k (by omega) hklt)

def emptyStorage : Storage := ⟨[], [], [], [], [], 1⟩

def arTwoGroups : Archive :=
  ⟨[], [⟨1, uuidExA, "g"⟩, ⟨2, uuidEx1, "g"⟩], [], [], [], ["Group"], []⟩

/-- C5 counterexample.  The claim says a new group whose label collides with a
label already processed earlier in the same import run (two identical labels
inside one archive) gets a disambiguating suffix so the stored labels are
distinct; but the collision `while` loop only queries the database, never the
labels claimed earlier in the run, so importing two groups labelled `g` into
an empty storage stores two rows both labelled `g`. -/
theorem C5_counterexample :
    importData ⟨none, false, "kcl", "import", "newest"⟩ arTwoGroups emptyStorage =
      (.ok ⟨[], [], [(1, 1), (2, 2)], [], [], [], []⟩,
        ⟨[], [⟨1, uuidExA, "g"⟩, ⟨2, uuidEx1, "g"⟩,
          ⟨3, "import-group-uuid", "import-group-label"⟩], [], [], [], 4⟩) := rfl

/-- C5 as amended.  Group-label collision handling consults storage only: a
successful disambiguation returns a label free in storage that is either the
original or the original plus the deterministic suffix of an admissible
counter; when the original and all admissible suffixed variants are taken, the
bounded `MAX_GROUPS` attempts end in the uniqueness error; and two new groups
with identical labels inside one archive are both classified with that label
unchanged (no same-run disambiguation). -/
theorem C5_group_labels (dbGroups : List DbGroup) :
    (∀ orig l, disambiguateGroupLabel (dbGroups.map DbGroup.label) orig = .ok l →
        l ∉ dbGroups.map DbGroup.label ∧
        (l = orig ∨ ∃ k, k + 1 < MAX_GROUPS ∧ l = orig ++ DUPL_SUFFIX k)) ∧
    (∀ orig, orig ∈ dbGroups.map DbGroup.label →
        (∀ k, k + 1 < MAX_GROUPS → orig ++ DUPL_SUFFIX k ∈ dbGroups.map DbGroup.label) →
        disambiguateGroupLabel (dbGroups.map DbGroup.label) orig =
          .error (.importUniqueness orig)) ∧
    (∀ g1 g2 : ArchGroup, g1.label = g2.label →
        g1.label ∉ dbGroups.map DbGroup.label →
        g1.uuid ∉ dbGroups.map DbGroup.uuid →
        g2.uuid ∉ dbGroups.map DbGroup.uuid →
        selectGroups dbGroups [g1, g2] = .ok ⟨[(g1.pk, g1), (g2.pk, g2)], [], []⟩) := by
  refine ⟨?_, ?_, ?_⟩
  · intro orig l h
    obtain ⟨h1, h2⟩ := disambLoop_ok (dbGroups.map DbGroup.label) orig MAX_GROUPS orig 0 l
      (by omega) h
    refine ⟨h1, ?_⟩
    rcases h2 with rfl | ⟨k, -, hklt, rfl⟩
    · exact Or.inl rfl
    · exact Or.inr ⟨k, hklt, rfl⟩
  · intro orig hmem hall
    exact disambLoop_error (dbGroups.map DbGroup.label) orig MAX_GROUPS 0 orig
      (by omega) (by decide) hmem (fun k _ hklt => hall k hklt)
  · intro g1 g2 heq hlab hu1 hu2
    obtain ⟨p1, w1, l1⟩ := g1
    obtain ⟨p2, w2, l2⟩ := g2
    simp only [ArchGroup.label] at heq hlab
    simp only [ArchGroup.uuid] at hu1 hu2
    subst heq
    have hrel : dbGroups.filter (fun d => d.uuid ∈ [w1, w2] : DbGroup → Bool) = [] := by
      rw [List.filter_eq_nil_iff]
      intro d hd
      simp only [List.mem_cons, List.not_mem_nil, or_false, decide_eq_true_eq]
      rintro (h | h) <;> [exact hu1 (h ▸ List.mem_map_of_mem DbGroup.uuid hd);
        exact hu2 (h ▸ List.mem_map_of_mem DbGroup.uuid hd)]
    have hd1 : disambiguateGroupLabel (dbGroups.map DbGroup.label) l1 = .ok l1 :=
      disambLoop_not_mem _ _ _ 0 MAX_GROUPS (by decide) hlab
    simp only [selectGroups, List.map_cons, List.map_nil]
    rw [hrel]
    simp [selectGroupsLoop, hd1]

/-- Witness for the amended C5: against a database holding label `g`, the
original `g` is disambiguated to the first suffixed variant; and two new
groups labelled `gg` are both classified with label `gg` unchanged. -/
theorem C5_group_labels_witness :
    ("g (Imported #0)" ∉ List.map DbGroup.label [(⟨1, uuidEx2, "g"⟩ : DbGroup)] ∧
      ("g (Imported #0)" = "g" ∨
        ∃ k, k + 1 < MAX_GROUPS ∧ "g (Imported #0)" = "g" ++ DUPL_SUFFIX k)) ∧
    selectGroups [⟨1, uuidEx2, "g"⟩] [⟨1, uuidExA, "gg"⟩, ⟨2, uuidEx1, "gg"⟩] =
      .ok ⟨[(1, ⟨1, uuidExA, "gg"⟩), (2, ⟨2, uuidEx1, "gg"⟩)], [], []⟩ :=
  ⟨(C5_group_labels [⟨1, uuidEx2, "g"⟩]).1 "g" "g (Imported #0)" rfl,
   (C5_group_labels [⟨1, uuidEx2, "g"⟩]).2.2 ⟨1, uuidExA, "gg"⟩ ⟨2, uuidEx1, "gg"⟩ rfl
     (by decide) (by decide) (by decide)⟩

def arEmpty : Archive := ⟨[], [], [], [], [], [], []⟩

/-- C7 counterexample.  The claim says a comment_mode outside
`newest`/`overwrite` (here `bogus`, together with an invalid
`extras_mode_existing` of `zzz`) raises a validation error before any storage
access; instead the run completes successfully, because those two arguments
are only examined by the merge helpers when an existing comment or an existing
node's extras is actually merged. -/
theorem C7_counterexample :
    importData ⟨none, false, "zzz", "import", "bogus"⟩ arEmpty emptyStorage =
      (.ok ⟨[], [], [], [], [], [], []⟩,
        ⟨[], [⟨1, "import-group-uuid", "import-group-label"⟩], [], [], [], 2⟩) := rfl

/-- C7 as amended.  Only `extras_mode_new` is validated up front: any value
other than `import`/`none` raises the validation error immediately, with the
storage untouched; invalid `extras_mode_existing` or `comment_mode` values are
not validated before storage access -- a run that never merges an existing
comment or existing node extras completes without any error for them. -/
theorem C7_validation :
    (∀ (args : Args) (ar : Archive) (st0 : Storage),
      ¬ (args.extras_mode_new = "import" ∨ args.extras_mode_new = "none") →
      importData args ar st0 =
        (.error (.importValidation
          ("Unknown extras_mode_new value: " ++ args.extras_mode_new)), st0)) ∧
    (importData ⟨none, false, "zzz", "import", "bogus"⟩ arEmpty emptyStorage).1 =
      .ok ⟨[], [], [], [], [], [], []⟩ := by
  constructor
  · intro args ar st0 h
    unfold importData
    rw [if_pos h]
  · rfl

/-- Witness for the amended C7 at a concrete invalid `extras_mode_new`. -/
theorem C7_validation_witness :
    importData ⟨none, false, "kcl", "wrong", "newest"⟩ arEmpty emptyStorage =
      (.error (.importValidation ("Unknown extras_mode_new value: " ++ "wrong")),
        emptyStorage) :=
  C7_validation.1 ⟨none, false, "kcl", "wrong", "newest"⟩ arEmpty emptyStorage (by decide)

/-- Storing the target group touches only the group table and the pk
sequence. -/
theorem storeTargetGroup_fields (g : Option TargetGroup) (st : Storage) :
    (storeTargetGroup g st).nodes = st.nodes ∧
    (storeTargetGroup g st).comments = st.comments ∧
    (storeTargetGroup g st).links = st.links ∧
    (storeTargetGroup g st).groupMembers = st.groupMembers := by
  rcases g with _ | tg
  · exact ⟨rfl, rfl, rfl, rfl⟩
  · by_cases hs : tg.is_stored = true <;> simp [storeTargetGroup, hs]

/-- C1 as amended.  Every fatal error of the run leaves the node, comment,
link and membership tables exactly as before the run, and the visible storage
is either the initial one or the initial one with just the caller's target
group stored: everything mutated inside the single main transaction is rolled
back whole; only the pre-transaction storing of an unstored caller-supplied
target group and the post-transaction import-group attachment (which never
runs on error) escape the rollback. -/
theorem C1_rollback (args : Args) (ar : Archive) (st0 : Storage) (e : ImpError)
    (stf : Storage) (h : importData args ar st0 = (.error e, stf)) :
    stf.nodes = st0.nodes ∧ stf.comments = st0.comments ∧ stf.links = st0.links ∧
    stf.groupMembers = st0.groupMembers ∧
    (stf = st0 ∨ stf = storeTargetGroup args.group st0) := by
  have hp := storeTargetGroup_fields args.group st0
  unfold importData at h
  split at h
  · rw [Prod.mk.injEq] at h
    obtain ⟨-, h2⟩ := h
    subst h2
    exact ⟨rfl, rfl, rfl, rfl, Or.inl rfl⟩
  · have h2 : stf = storeTargetGroup args.group st0 := by
      unfold importDataChecked at h
      split at h
      · exact (Prod.mk.injEq .. ▸ h).2.symm ▸ rfl
      · split at h
        · exact (Prod.mk.injEq .. ▸ h).2.symm ▸ rfl
        · split at h
          · exact (Prod.mk.injEq .. ▸ h).2.symm ▸ rfl
          · split at h
            · exact (Prod.mk.injEq .. ▸ h).2.symm ▸ rfl
            · rw [Prod.mk.injEq] at h
              exact absurd h.1 (by simp)
    subst h2
    exact ⟨hp.1, hp.2.1, hp.2.2.1, hp.2.2.2, Or.inr rfl⟩

def arDangling : Archive :=
  ⟨[], [], [], [⟨uuidEx1, uuidEx2, "lbl", "create"⟩], [], [], []⟩

/-- C1 counterexample.  The claim says a fatal error during pre-flight
validation leaves no storage mutation of the run visible; but a
caller-supplied unstored target group is stored before the pre-flight checks
and outside the transaction, so when the dangling-reference pre-check raises,
the freshly stored group remains visible. -/
theorem C1_counterexample :
    importData ⟨some ⟨uuidExA, "TG", false⟩, false, "kcl", "import", "newest"⟩
        arDangling emptyStorage =
      (.error (.danglingLink [uuidEx1, uuidEx2]),
        ⟨[], [⟨1, uuidExA, "TG"⟩], [], [], [], 2⟩) ∧
    (⟨[], [⟨1, uuidExA, "TG"⟩], [], [], [], 2⟩ : Storage) ≠ emptyStorage :=
  ⟨rfl, by decide⟩

/-- Witness for the amended C1 at a concrete failing run (dangling pre-check,
no target group): the final storage is the initial one. -/
theorem C1_rollback_witness :
    emptyStorage.nodes = emptyStorage.nodes ∧
    emptyStorage.comments = emptyStorage.comments ∧
    emptyStorage.links = emptyStorage.links ∧
    emptyStorage.groupMembers = emptyStorage.groupMembers ∧
    (emptyStorage = emptyStorage ∨
      emptyStorage = storeTargetGroup none emptyStorage) :=
  C1_rollback ⟨none, false, "kcl", "import", "newest"⟩ arDangling emptyStorage
    (.danglingLink [uuidEx1, uuidEx2]) emptyStorage rfl

def arMember : Archive :=
  ⟨[], [⟨1, uuidExA, "G"⟩], [], [], [(uuidExA, [uuidEx1])], ["Group"], []⟩

/-- C2 counterexample.  The claim says that with `ignore_unknown_nodes = true`
the run proceeds and unknown links/members are silently dropped later; but a
group member whose (valid) UUID is absent from the archive's nodes survives
the pre-check only to hit a bare dictionary access in
`_add_nodes_to_groups`, so the run aborts with an uncaught `KeyError` instead
of dropping the member. -/
theorem C2_counterexample :
    importData ⟨none, true, "kcl", "import", "newest"⟩ arMember emptyStorage =
      (.error (.keyError uuidEx1), emptyStorage) := rfl

/-- C2 as amended.  The pre-check subtracts the archive's node identifiers
from the (UUID-filtered) link/member references; a non-empty remainder with
`ignore_unknown_nodes = false` raises `DanglingLinkError` listing it, with the
storage untouched except for the target-group store; with the flag true the
pre-check passes and link endpoints that stay unresolved are dropped silently
during link materialization, but a group member absent from the node mapping
raises an uncaught key error during group-membership attachment. -/
theorem C2_dangling :
    (∀ (args : Args) (ar : Archive) (st0 : Storage),
      (args.extras_mode_new = "import" ∨ args.extras_mode_new = "none") →
      unknown_nodes ar ≠ [] → args.ignore_unknown_nodes = false →
      importData args ar st0 =
        (.error (.danglingLink (unknown_nodes ar)), storeTargetGroup args.group st0)) ∧
    (∀ ar : Archive, danglingPrecheck true ar = .ok ()) ∧
    (∀ (nodes : List DbNode) (nodeMap : List (String × Nat)) (st : LinkState)
        (link : LinkRec),
      (nodeMap.lookup link.input = none ∨ nodeMap.lookup link.output = none) →
      storeOneLink nodes nodeMap true st link = .ok st) ∧
    (∀ (nodeMap : List (String × Nat)) (st : Storage) (guuid u : String)
        (us : List String) (rest : List (String × List String)) (g : DbGroup),
      st.groups.find? (fun d => d.uuid == guuid) = some g →
      nodeMap.lookup u = none →
      addNodesToGroupsLoop nodeMap st ((guuid, u :: us) :: rest) =
        .error (.keyError u)) := by
  refine ⟨?_, ?_, ?_, ?_⟩
  · intro args ar st0 hvalid hne hig
    have hpre : danglingPrecheck args.ignore_unknown_nodes ar =
        .error (.danglingLink (unknown_nodes ar)) := by
      rw [hig]
      unfold danglingPrecheck
      rw [if_pos ⟨hne, by simp⟩]
    unfold importData
    rw [if_neg (not_not_intro hvalid)]
    unfold importDataChecked
    rw [hpre]
  · intro ar
    unfold danglingPrecheck
    rw [if_neg (by simp)]
  · intro nodes nodeMap st link h
    rcases hx : nodeMap.lookup link.input with _ | i <;>
      rcases hy : nodeMap.lookup link.output with _ | o <;>
        simp [storeOneLink, hx, hy] at h ⊢
  · intro nodeMap st guuid u us rest g hfind hlook
    have hm : (u :: us).mapM (fun v =>
        match nodeMap.lookup v with
        | some pk => Except.ok pk
        | none => Except.error (ImpError.keyError v)) =
        (.error (.keyError u) : Except ImpError (List Nat)) := by
      rw [List.mapM_cons]
      simp only [hlook]
      rfl
    simp only [addNodesToGroupsLoop, List.isEmpty_cons, Bool.false_eq_true,
      if_false, hfind, hm]

/-- Witness for the amended C2: a concrete dangling archive fails the
pre-check with the dangling error and untouched storage, and a concrete
unresolvable group member raises the key error during attachment. -/
theorem C2_dangling_witness :
    importData ⟨none, false, "kcl", "import", "newest"⟩ arDangling emptyStorage =
      (.error (.danglingLink (unknown_nodes arDangling)),
        storeTargetGroup none emptyStorage) ∧
    addNodesToGroupsLoop [] ⟨[], [⟨5, uuidExA, "G"⟩], [], [], [], 9⟩
        [(uuidExA, [uuidEx1])] = .error (.keyError uuidEx1) :=
  ⟨C2_dangling.1 ⟨none, false, "kcl", "import", "newest"⟩ arDangling emptyStorage
      (Or.inl rfl) (by decide) rfl,
   C2_dangling.2.2.2 [] ⟨[], [⟨5, uuidExA, "G"⟩], [], [], [], 9⟩ uuidExA uuidEx1 [] []
      ⟨5, uuidExA, "G"⟩ (by decide) rfl⟩
